import Mathlib

/-!
Verification development for the LigandPlots repository.

The repository is a molecular-dynamics post-processing pipeline: it builds
shell command strings for an external GROMACS container, discovers files by
glob pattern, parses whitespace-delimited `.xvg` tables, and renders plots.
This file gives a shallow embedding of that code:

* the filesystem is modelled as the list of file names in the working
  directory (all paths share the working-directory prefix, so ordering and
  identity reduce to the names);
* Python exceptions (`IndexError`, `ValueError`) are modelled with
  `Except String`;
* Python `float` values are modelled exactly by `PyFloat` (rationals plus
  infinities and nan); no claim here depends on binary rounding;
* external collaborators (the docker client, matplotlib) are modelled by
  records of the arguments the code passes to them (`Invocation`, `Figure`,
  `SaveFig`).
-/

namespace LigandPlots

/-! ### Python string ordering

Python compares strings lexicographically by Unicode code point; `sorted()`
orders with exactly this comparison.  `pyStrLeB` is that comparison on the
underlying character lists. -/

/-- Lexicographic (code-point) less-or-equal on character lists, as Python
compares strings. -/
def pyStrLeB : List Char → List Char → Bool
  | [], _ => true
  | _ :: _, [] => false
  | a :: as, b :: bs =>
      decide (a.toNat < b.toNat) || (decide (a.toNat = b.toNat) && pyStrLeB as bs)

/-- Python string `<=`, as a proposition. -/
def PyStrLe (a b : String) : Prop := pyStrLeB a.data b.data = true

instance : DecidableRel PyStrLe :=
  fun a b => inferInstanceAs (Decidable (pyStrLeB a.data b.data = true))

/-! ### File discovery (`helpers.find_files_with_same_pattern`)

`pathlib.Path.glob` enumerates directory entries matching an fnmatch-style
pattern; the enumeration order is OS-dependent, which we model by taking the
directory listing as an arbitrary list.  The supported wildcards are
 `*` (any, possibly empty, run of characters) and `?` (any single character);
fnmatch character classes are not used anywhere in this repository and are
not modelled.  `sorted()` is Python's sort under code-point comparison,
modelled by `List.insertionSort PyStrLe` (extensionally equal to any correct
sort for this total order, strings being indistinguishable when equal). -/

/-- `*` in a glob pattern: try the rest of the pattern (`f`) against every
suffix of the remaining characters. -/
def starScan (f : List Char → Bool) : List Char → Bool
  | [] => f []
  | c :: cs => f (c :: cs) || starScan f cs

/-- fnmatch-style matching of a pattern (first argument) against a file
name (second argument). -/
def globMatch : List Char → List Char → Bool
  | [], cs => cs.isEmpty
  | p :: ps, cs =>
    if p = '*' then starScan (globMatch ps) cs
    else
      match cs with
      | [] => false
      | c :: cs2 => (p = '?' || p = c) && globMatch ps cs2

/-- `helpers.find_files_with_same_pattern`: the names in the directory
listing that match the glob pattern, in Python `sorted()` order. -/
def find_files_with_same_pattern (files : List String) (pattern : String) :
    List String :=
  List.insertionSort PyStrLe (files.filter fun f => globMatch pattern.data f.data)

/-! ### Python floats and the `.xvg` reader (`helpers.read_xvg_files`)

`helpers.read_xvg_files` reads the file line by line, skips lines starting
with `#` or `@`, splits the remaining lines on whitespace, converts every
token with the Python builtin `float`, and finally converts the accumulated
list of rows with `np.array(data, dtype=float)`.

`PyFloat` models the values Python `float` can produce from a string:
finite values, signed infinities and nan.  A finite value is kept as the
exact decimal `num / 10 ^ shift`, unnormalized (so the kernel can evaluate
the parser; every decimal literal is such a fraction, and CPython's further
rounding to the nearest binary double is irrelevant to every claim here).
`pyFloat?` models the builtin `float(str)` parser on the tokens produced by
`str.split()`: optional surrounding whitespace, an optional sign, then
either a decimal number with optional fraction and exponent, or the
case-insensitive words `inf`/`infinity`/`nan`.  (PEP 515 underscore digit
separators and non-ASCII Unicode digits are accepted by CPython but never
occur in `.xvg` output and are not modelled.) -/

/-- A value of the Python `float` type; `finite num shift` is the exact
decimal `num / 10 ^ shift`. -/
inductive PyFloat where
  | finite (num : ℤ) (shift : ℕ)
  | infinity (neg : Bool)
  | nan
deriving DecidableEq, Repr

/-- The characters Python `str.split()` and `str.strip()` treat as
whitespace (the ASCII ones: space, tab, newline, carriage return, vertical
tab, form feed). -/
def isPySpace (c : Char) : Bool :=
  c = ' ' || c = '\t' || c = '\n' || c = '\r' ||
    c = Char.ofNat 11 || c = Char.ofNat 12

/-- Decimal digits to the natural number they denote. -/
def digitsToNat (ds : List Char) : ℕ :=
  ds.foldl (fun a c => 10 * a + (c.toNat - 48)) 0

/-- The optional exponent part of a Python float literal: either the end of
the token, or `e`/`E`, an optional sign and at least one digit consuming
the whole rest of the token.  `m = (num, shift)` is the mantissa parsed so
far; a positive exponent multiplies `num`, a negative one grows `shift`. -/
def parseExpPart (cs : List Char) (m : ℕ × ℕ) : Option (ℕ × ℕ) :=
  match cs with
  | [] => some m
  | e :: rest =>
    if e = 'e' || e = 'E' then
      let signedRest :=
        match rest with
        | s :: r2 =>
          if s = '+' then (false, r2)
          else if s = '-' then (true, r2)
          else (false, rest)
        | [] => (false, rest)
      let ds := signedRest.2.takeWhile Char.isDigit
      let tail := signedRest.2.dropWhile Char.isDigit
      if ds.isEmpty || !tail.isEmpty then none
      else if signedRest.1 then some (m.1, m.2 + digitsToNat ds)
      else some (m.1 * 10 ^ digitsToNat ds, m.2)
    else none

/-- The unsigned numeric body of a Python float literal:
`digits`, `digits.digits?`, or `.digits`, followed by an optional
exponent; the result `(num, shift)` denotes `num / 10 ^ shift`. -/
def parseUnsignedFloat (cs : List Char) : Option (ℕ × ℕ) :=
  let ip := cs.takeWhile Char.isDigit
  let rest := cs.dropWhile Char.isDigit
  match rest with
  | c :: rest2 =>
    if c = '.' then
      let fp := rest2.takeWhile Char.isDigit
      let rest3 := rest2.dropWhile Char.isDigit
      if ip.isEmpty && fp.isEmpty then none
      else parseExpPart rest3 (digitsToNat (ip ++ fp), fp.length)
    else if ip.isEmpty then none
    else parseExpPart rest (digitsToNat ip, 0)
  | [] => if ip.isEmpty then none else some (digitsToNat ip, 0)

/-- The Python builtin `float(s)`: `some` of the parsed value, `none` when
CPython would raise `ValueError`. -/
def pyFloat? (s : String) : Option PyFloat :=
  let cs := ((s.data.dropWhile isPySpace).reverse.dropWhile isPySpace).reverse
  let signedBody :=
    match cs with
    | c :: rest =>
      if c = '-' then (true, rest)
      else if c = '+' then (false, rest)
      else (false, cs)
    | [] => (false, cs)
  let lower := signedBody.2.map Char.toLower
  if lower = "inf".data || lower = "infinity".data then
    some (PyFloat.infinity signedBody.1)
  else if lower = "nan".data then some PyFloat.nan
  else
    (parseUnsignedFloat signedBody.2).map fun m =>
      PyFloat.finite (if signedBody.1 then -(m.1 : ℤ) else (m.1 : ℤ)) m.2

/-- Worker for `str.split()`: `acc` is the current word, reversed. -/
def splitWordsAux : List Char → List Char → List (List Char)
  | acc, [] => if acc.isEmpty then [] else [acc.reverse]
  | acc, c :: cs =>
    if isPySpace c then
      if acc.isEmpty then splitWordsAux [] cs
      else acc.reverse :: splitWordsAux [] cs
    else splitWordsAux (c :: acc) cs

/-- `str.split()` with no separator argument: split on runs of whitespace,
never producing empty words. -/
def splitWords (cs : List Char) : List (List Char) := splitWordsAux [] cs

/-- `line.strip().split()` as used in `read_xvg_files` (the `strip` is
subsumed by `split()`, which already drops leading and trailing
whitespace). -/
def pySplit (s : String) : List String := (splitWords s.data).map List.asString

/-- A line the reader skips:
`line.startswith('#') or line.startswith('@')`, i.e. the first character is
one of the two comment markers (an empty line starts with neither). -/
def isCommentLine (line : String) : Bool :=
  match line.data with
  | [] => false
  | c :: _ => c = '#' || c = '@'

/-- `[float(val) for val in line.strip().split()]` for one line: `some` row
exactly when every token parses. -/
def parseXvgLine (line : String) : Option (List PyFloat) :=
  (pySplit line).mapM pyFloat?

/-- `np.array(data, dtype=float)` on a list of float rows: succeeds exactly
when the rows all have the same length, raising `ValueError` on a ragged
nested list. -/
def npArrayOfRows (rows : List (List PyFloat)) :
    Except String (List (List PyFloat)) :=
  match rows with
  | [] => Except.ok []
  | r :: rs =>
    if rs.all fun row => row.length == r.length then Except.ok (r :: rs)
    else Except.error "ValueError: setting an array element with a sequence"

/-- `helpers.read_xvg_files`, taking the file content as its list of lines:
skip comment lines, parse every token of the remaining lines as a float,
then convert with `np.array(_, dtype=float)`. -/
def read_xvg_files (lines : List String) :
    Except String (List (List PyFloat)) :=
  match (lines.filter fun l => !isCommentLine l).mapM parseXvgLine with
  | some rows => npArrayOfRows rows
  | none => Except.error "ValueError: could not convert string to float"

/-! ### Chart rendering (`plots.Plots`)

matplotlib is an external collaborator; we model it by recording the
arguments each call passes to it.  `Figure` records what `plot_data`
configures on the axes; `SaveFig` records the `plt.savefig` call of each
wrapper; `RenderedPlot` bundles the figure, the `plt.suptitle` text and the
save call.  Python list indexing out of range and matplotlib's rejection of
`ax.plot(x, y)` with mismatched lengths are the failure modes, modelled via
`Except`. -/

/-- The state `plot_data` leaves on the matplotlib figure. -/
structure Figure where
  lineColor : String
  lineWidth : PyFloat
  xlabel : String
  ylabel : String
  title : String
  legend : Option String
  xlim : PyFloat × PyFloat
  minorTicks : Bool
  tickDirection : String
  tickRight : Bool
  tickTop : Bool
deriving DecidableEq, Repr

/-- One `plt.savefig` call. -/
structure SaveFig where
  filename : String
  bboxInches : String
  padInches : PyFloat
  dpi : ℕ
deriving DecidableEq, Repr

/-- What one plotting wrapper produces: the configured figure, the
`plt.suptitle` text, and the save call. -/
structure RenderedPlot where
  fig : Figure
  suptitle : String
  savefig : SaveFig
deriving DecidableEq, Repr

/-- Python `l[i]` for a non-negative index: `IndexError` when out of
range. -/
def pyIndex {α : Type} (l : List α) (i : ℕ) : Except String α :=
  match l.get? i with
  | some v => Except.ok v
  | none => Except.error "IndexError: list index out of range"

/-- Python `l[-1]`: the last element, `IndexError` on an empty list. -/
def pyLast {α : Type} (l : List α) : Except String α :=
  match l.getLast? with
  | some v => Except.ok v
  | none => Except.error "IndexError: list index out of range"

/-- `Plots.plot_data`: plot `x` against `y` as a black line of width 0.7,
set the axis labels and title from `titles` (legend when `titles` has
length 4), pin the x limits to `x[0]` and `x[-1]`, switch minor ticks on
and draw all ticks inward on all four sides.  `ax.plot` raises when the two
series have different lengths, and the `titles` and `x` indexing raises on
too-short input, in that source order. -/
def plot_data (x y : List PyFloat) (titles : List String) :
    Except String Figure :=
  if x.length ≠ y.length then
    Except.error "ValueError: x and y must have same first dimension"
  else do
    let xlab ← pyIndex titles 0
    let ylab ← pyIndex titles 1
    let ttl ← pyIndex titles 2
    let legend : Option String :=
      if titles.length = 4 then titles.getLast? else none
    let x0 ← pyIndex x 0
    let xn ← pyLast x
    Except.ok
      { lineColor := "black"
        lineWidth := PyFloat.finite 7 1
        xlabel := xlab
        ylabel := ylab
        title := ttl
        legend := legend
        xlim := (x0, xn)
        minorTicks := true
        tickDirection := "in"
        tickRight := true
        tickTop := true }

/-- `arr[:, j]` on the 2-D array `np.array` produced: `IndexError` when the
array is 0-rows (numpy then built a 1-D empty array, which has no second
axis) or when some row is shorter than `j + 1`. -/
def npColumn (rows : List (List PyFloat)) (j : ℕ) :
    Except String (List PyFloat) :=
  match rows with
  | [] => Except.error "IndexError: too many indices for array"
  | _ =>
    match rows.mapM fun r => r.get? j with
    | some col => Except.ok col
    | none => Except.error "IndexError: index out of bounds"

/-- numpy elementwise `v / 10 ^ k` (the source divides the minimization
time column by 1000, i.e. `k = 3`); division of a finite decimal by a power
of ten is exact, and `inf / 1000 = inf`, `nan / 1000 = nan`. -/
def PyFloat.divPow10 (v : PyFloat) (k : ℕ) : PyFloat :=
  match v with
  | PyFloat.finite n s => PyFloat.finite n (s + k)
  | PyFloat.infinity b => PyFloat.infinity b
  | PyFloat.nan => PyFloat.nan

/-- The `Plots` object: working-directory path and protein name.  Its
constructor also derives `images_path` and creates the `images` folder. -/
structure Plots where
  path : String
  protein : String
deriving DecidableEq, Repr

/-- `self.images_path` as set in `Plots.__init__`. -/
def Plots.images_path (p : Plots) : String := p.path ++ "/images/"

/-- `Plots.plot_energy_minimization`, taking the content of
`potential.xvg` as its list of lines: read the table, plot column 0 divided
by 1000 against column 1, set the suptitle and save at 300 dpi with a tight
bounding box. -/
def Plots.plot_energy_minimization (p : Plots) (potentialLines : List String) :
    Except String RenderedPlot := do
  let energy_data ← read_xvg_files potentialLines
  let c0 ← npColumn energy_data 0
  let c1 ← npColumn energy_data 1
  let fig ← plot_data (c0.map fun v => v.divPow10 3) c1
    ["Time $(ns)$", "Potential Energy $(kJ/mol)$", p.protein]
  Except.ok
    { fig := fig
      suptitle := "Energy Minimization"
      savefig :=
        { filename := p.images_path ++ "minimization.png"
          bboxInches := "tight"
          padInches := PyFloat.finite 1 1
          dpi := 300 } }

/-- `Plots.plot_temperature`, taking the content of `temperature.xvg` as
its list of lines. -/
def Plots.plot_temperature (p : Plots) (temperatureLines : List String) :
    Except String RenderedPlot := do
  let temperature ← read_xvg_files temperatureLines
  let c0 ← npColumn temperature 0
  let c1 ← npColumn temperature 1
  let fig ← plot_data c0 c1
    ["Time $(ps)$", "Potential Energy $(K)$", p.protein ++ ", NVT Equilibration"]
  Except.ok
    { fig := fig
      suptitle := "Temperature"
      savefig :=
        { filename := p.images_path ++ "temperature.png"
          bboxInches := "tight"
          padInches := PyFloat.finite 1 1
          dpi := 300 } }

/-- `Plots.plot_pressure`, taking the content of `pressure.xvg` as its list
of lines. -/
def Plots.plot_pressure (p : Plots) (pressureLines : List String) :
    Except String RenderedPlot := do
  let pressure ← read_xvg_files pressureLines
  let c0 ← npColumn pressure 0
  let c1 ← npColumn pressure 1
  let fig ← plot_data c0 c1
    ["Time $(ps)$", "Pressure $(bar)$", p.protein ++ ", NPT Equilibration"]
  Except.ok
    { fig := fig
      suptitle := "Pressure"
      savefig :=
        { filename := p.images_path ++ "pressure.png"
          bboxInches := "tight"
          padInches := PyFloat.finite 1 1
          dpi := 300 } }

/-- `Plots.plot_density`, taking the content of `density.xvg` as its list
of lines. -/
def Plots.plot_density (p : Plots) (densityLines : List String) :
    Except String RenderedPlot := do
  let density ← read_xvg_files densityLines
  let c0 ← npColumn density 0
  let c1 ← npColumn density 1
  let fig ← plot_data c0 c1
    ["Time $(ps)$", "Density $(kg/m^{3})$", p.protein ++ ", NPT Equilibration"]
  Except.ok
    { fig := fig
      suptitle := "Density"
      savefig :=
        { filename := p.images_path ++ "density.png"
          bboxInches := "tight"
          padInches := PyFloat.finite 1 1
          dpi := 300 } }

/-! ### The simulation runner (`gromacs.GromacsData`)

The docker client is an external collaborator; each
`client.containers.run(...)` call is modelled by an `Invocation` record of
the arguments the code passes.  Operations that scan the working directory
take its listing as an explicit argument; `get_latest_configuration` also
takes the content of `trajectory_info.txt` written by its first container
run.  Operations return the list of invocations they make, wrapped in
`Except` where the Python code can raise before completing (the
invocations already made before such a raise are not tracked). -/

/-- `GromacsData.CONTAINER_WORK_DIR`. -/
def CONTAINER_WORK_DIR : String := "/container/data"

/-- The image identifier hard-coded in `_run_gromacs_container`. -/
def gromacsImage : String := "jpmontoya19/gromacs:latest"

/-- One entry of the docker volume mapping: host path bound to a container
path with an access mode. -/
structure VolumeBind where
  host : String
  bind : String
  mode : String
deriving DecidableEq, Repr

/-- One `client.containers.run` call: image, argv, container working
directory, volume mapping, and the `remove` keyword. -/
structure Invocation where
  image : String
  command : List String
  workingDir : String
  volumes : List VolumeBind
  remove : Bool
deriving DecidableEq, Repr

/-- The `GromacsData` object; its constructor keeps the working-directory
path and builds `self.volume` from it once (and creates the `results`
folder, a filesystem effect not otherwise relevant here). -/
structure GromacsData where
  path : String
deriving DecidableEq, Repr

/-- `self.volume` as built in `GromacsData.__init__`: the working directory
bound at `CONTAINER_WORK_DIR` in read-write mode. -/
def GromacsData.volume (g : GromacsData) : List VolumeBind :=
  [{ host := g.path, bind := CONTAINER_WORK_DIR, mode := "rw" }]

/-- `GromacsData._run_gromacs_container`: run the fixed image with the
given command, the fixed container working directory (no caller overrides
the default), `volumes=self.volume`, and the given `remove` flag (only the
minimization step passes `remove=True`). -/
def GromacsData.run_gromacs_container (g : GromacsData) (command : List String)
    (remove : Bool) : Invocation :=
  { image := gromacsImage
    command := command
    workingDir := CONTAINER_WORK_DIR
    volumes := g.volume
    remove := remove }

/-- `GromacsData._find_last_tpr_file`, taking the working-directory
listing: index `[-1]` into the sorted `md_0_*.tpr` matches — `IndexError`
when there is no match — and return the `(name, path)` pair (paths are
modelled by names, the directory being fixed). -/
def GromacsData.find_last_tpr_file (_g : GromacsData)
    (dirListing : List String) : Except String (String × String) :=
  match (find_files_with_same_pattern dirListing "md_0_*.tpr").getLast? with
  | some last_tpr => Except.ok (last_tpr, last_tpr)
  | none => Except.error "IndexError: list index out of range"

/-- `GromacsData.generate_minimization_data`: pipe selectors `10 0` into
`gmx energy` over `em.edr`, producing `potential.xvg`. -/
def GromacsData.generate_minimization_data (g : GromacsData) :
    List Invocation :=
  [g.run_gromacs_container
    ["sh", "-c", "echo 10 0 | gmx energy -f em.edr -o potential.xvg"] true]

/-- `GromacsData.generate_nvt_data`: pipe selectors `16 0` into
`gmx energy` over `nvt.edr`, producing `temperature.xvg`. -/
def GromacsData.generate_nvt_data (g : GromacsData) : List Invocation :=
  [g.run_gromacs_container
    ["sh", "-c", "echo 16 0 | gmx energy -f nvt.edr -o temperature.xvg"] false]

/-- `GromacsData.generate_npt_data`: pipe selectors `18 0` then `24 0` into
`gmx energy` over `npt.edr`, producing `pressure.xvg` and `density.xvg`. -/
def GromacsData.generate_npt_data (g : GromacsData) : List Invocation :=
  [g.run_gromacs_container
    ["sh", "-c", "echo 18 0 | gmx energy -f npt.edr -o pressure.xvg"] false,
   g.run_gromacs_container
    ["sh", "-c", "echo 24 0 | gmx energy -f npt.edr -o density.xvg"] false]

/-- `GromacsData.generate_final_xtc_file`: concatenate the `.xtc` members
extracted from the `my_job_*.output.tar.gz` archives (taken here as the
already-extracted member names, in extraction order) with `gmx trjcat`.
The tar extraction and the removal of the `my_output` scratch folder are
filesystem effects outside this model. -/
def GromacsData.generate_final_xtc_file (g : GromacsData)
    (xtc_files : List String) : List Invocation :=
  [g.run_gromacs_container
    ["sh", "-c",
      "gmx trjcat -f " ++ String.intercalate " " xtc_files ++ " -o final.xtc"]
    false]

/-- `GromacsData.fix_periodicity`: look up the topology file, then pipe
`1 0` into `gmx trjconv` re-wrapping `final.xtc` into `fixed.xtc`. -/
def GromacsData.fix_periodicity (g : GromacsData) (dirListing : List String) :
    Except String (List Invocation) := do
  let tpr ← g.find_last_tpr_file dirListing
  Except.ok
    [g.run_gromacs_container
      ["sh", "-c",
        "echo 1 0 | gmx trjconv -s " ++ tpr.1 ++
          " -f final.xtc -o fixed.xtc -center -pbc mol -ur compact"]
      false]

/-- `n` spaces. -/
def spaces (n : ℕ) : String := List.asString (List.replicate n ' ')

/-- The triple-quoted `gmx trjconv ... -dump …` command of
`get_initial_configuration` and `get_latest_configuration`.  Inside the
Python triple-quoted f-string each trailing backslash elides its newline,
so the value is one long line whose pieces keep the source indentation
(16 or 20 spaces), opening with the newline after `f\x22\x22\x22` and
closing with the newline and 12-space indent before the closing quotes. -/
def trjconvDumpCommand (filename outFile dumpArg : String) : String :=
  "\n" ++ spaces 16 ++ "echo 22 | " ++ spaces 16 ++ "gmx trjconv " ++
    spaces 20 ++ "-s " ++ filename ++ " " ++
    spaces 20 ++ "-f fixed.xtc " ++
    spaces 20 ++ "-n index.ndx " ++
    spaces 20 ++ "-o " ++ outFile ++ " " ++
    spaces 20 ++ "-dump " ++ dumpArg ++ "\n" ++ spaces 12

/-- `GromacsData.get_initial_configuration`: look up the topology file,
then pipe group `22` into `gmx trjconv`, dumping the frame at time 0 of
`fixed.xtc` into `initial_configuration.pdb`. -/
def GromacsData.get_initial_configuration (g : GromacsData)
    (dirListing : List String) : Except String (List Invocation) := do
  let tpr ← g.find_last_tpr_file dirListing
  Except.ok
    [g.run_gromacs_container
      ["sh", "-c", trjconvDumpCommand tpr.1 "initial_configuration.pdb" "0"]
      false]

/-- One attempt of `re.search(r'Last frame\s+(\d+(\.\d+)?)', line)` at the
position right after a `Last frame` literal: at least one whitespace
character, then at least one digit, then greedily an optional `.` followed
by at least one digit; the returned string is `group(1)`. -/
def matchLastFrameAt (cs : List Char) : Option String :=
  let ws := cs.takeWhile isPySpace
  let rest := cs.dropWhile isPySpace
  if ws.isEmpty then none
  else
    let ds := rest.takeWhile Char.isDigit
    let rest2 := rest.dropWhile Char.isDigit
    if ds.isEmpty then none
    else
      match rest2 with
      | c :: rest3 =>
        if c = '.' then
          let fp := rest3.takeWhile Char.isDigit
          if fp.isEmpty then some (List.asString ds)
          else some (List.asString (ds ++ ['.'] ++ fp))
        else some (List.asString ds)
      | [] => some (List.asString ds)

/-- `re.search` over one line: try the pattern at each position from the
left; a position matches when the literal `Last frame` occurs there and the
continuation succeeds. -/
def lastFrameSearch : List Char → Option String
  | [] => none
  | c :: cs =>
    match
      (if List.isPrefixOf "Last frame".data (c :: cs) then
        matchLastFrameAt (List.drop 10 (c :: cs))
      else none) with
    | some s => some s
    | none => lastFrameSearch cs

/-- The report-scanning loop of `get_latest_configuration`: the first
line's match wins, later lines are not consulted; `none` models Python's
`last_frame = None` surviving the loop. -/
def findLastFrame : List String → Option String
  | [] => none
  | l :: rest =>
    match lastFrameSearch l.data with
    | some s => some s
    | none => findLastFrame rest

/-- `GromacsData.get_latest_configuration`, taking the directory listing
and the content of `trajectory_info.txt` produced by its first container
run: run `gmx check` redirecting into the report file, scan the report for
the `Last frame` marker, look up the topology file, and run `gmx trjconv`
dumping at the extracted timestamp into `last_configuration.pdb`.  When no
line matches, `last_frame` is Python's `None` and the f-string interpolates
the literal text `None` as the `-dump` argument — the dump still runs. -/
def GromacsData.get_latest_configuration (g : GromacsData)
    (dirListing : List String) (reportLines : List String) :
    Except String (List Invocation) := do
  let checkInv := g.run_gromacs_container
    ["sh", "-c", "gmx check -f fixed.xtc > trajectory_info.txt 2>&1"] false
  let last_frame := findLastFrame reportLines
  let tpr ← g.find_last_tpr_file dirListing
  let dumpArg :=
    match last_frame with
    | some s => s
    | none => "None"
  Except.ok
    [checkInv,
     g.run_gromacs_container
      ["sh", "-c", trjconvDumpCommand tpr.1 "last_configuration.pdb" dumpArg]
      false]

/-! ### The orchestrator (`main.LigandPlots`)

`main.py` is straight-line glue; what the claims constrain is the order of
the calls it makes, so we model each method by the sequence of pipeline
steps it performs. -/

/-- One pipeline step the orchestrator can perform. -/
inductive PipelineStep where
  | genMinimization
  | genNvt
  | genNpt
  | genFinalXtc
  | fixPeriodicity
  | getInitialConfiguration
  | getLatestConfiguration
  | plotEnergyMinimization
  | plotTemperature
  | plotPressure
  | plotDensity
deriving DecidableEq, Repr

/-- The steps `LigandPlots.generate_gromacs_data` performs, in source
order: minimization, NVT, NPT; then, only under the `run_gromacs` flag, the
trajectory concatenation and periodicity fix; then the two configuration
extractions unconditionally. -/
def generate_gromacs_data_steps (run_gromacs : Bool) : List PipelineStep :=
  [PipelineStep.genMinimization, PipelineStep.genNvt, PipelineStep.genNpt]
    ++ (if run_gromacs then
          [PipelineStep.genFinalXtc, PipelineStep.fixPeriodicity]
        else [])
    ++ [PipelineStep.getInitialConfiguration,
        PipelineStep.getLatestConfiguration]

/-- The steps `LigandPlots.generate_ligand_plots` performs, in source
order. -/
def generate_ligand_plots_steps : List PipelineStep :=
  [PipelineStep.plotEnergyMinimization, PipelineStep.plotTemperature,
   PipelineStep.plotPressure, PipelineStep.plotDensity]

/-- `LigandPlots.Run`: all simulation steps, then all plotting steps. -/
def Run_steps (run_gromacs : Bool) : List PipelineStep :=
  generate_gromacs_data_steps run_gromacs ++ generate_ligand_plots_steps

/-- The invocation list of an operation that can raise: the invocations of
a successful run (a raising run aborts the pipeline and its earlier
invocations are not tracked). -/
def okInvocations (r : Except String (List Invocation)) : List Invocation :=
  match r with
  | Except.ok l => l
  | Except.error _ => []

/-! ### Helper lemmas -/

theorem pyStrLeB_refl (as : List Char) : pyStrLeB as as = true := by
  induction as with
  | nil => rfl
  | cons a as ih => simp [pyStrLeB, ih]

theorem pyStrLeB_total (as bs : List Char) :
    pyStrLeB as bs = true ∨ pyStrLeB bs as = true := by
  induction as generalizing bs with
  | nil => exact Or.inl rfl
  | cons a as ih =>
    cases bs with
    | nil => exact Or.inr rfl
    | cons b bs =>
      rcases Nat.lt_trichotomy a.toNat b.toNat with h | h | h
      · left; simp [pyStrLeB, h]
      · rcases ih bs with h2 | h2
        · left; simp [pyStrLeB, h, h2]
        · right; simp [pyStrLeB, h.symm, h2]
      · right; simp [pyStrLeB, h]

theorem pyStrLeB_trans {as bs cs : List Char}
    (h1 : pyStrLeB as bs = true) (h2 : pyStrLeB bs cs = true) :
    pyStrLeB as cs = true := by
  induction as generalizing bs cs with
  | nil => rfl
  | cons a as ih =>
    cases bs with
    | nil => simp [pyStrLeB] at h1
    | cons b bs =>
      cases cs with
      | nil => simp [pyStrLeB] at h2
      | cons c cs =>
        simp only [pyStrLeB, Bool.or_eq_true, Bool.and_eq_true,
          decide_eq_true_eq] at h1 h2 ⊢
        rcases h1 with h1 | ⟨hab, h1⟩
        · rcases h2 with h2 | ⟨hbc, _⟩
          · exact Or.inl (Nat.lt_trans h1 h2)
          · exact Or.inl (hbc ▸ h1)
        · rcases h2 with h2 | ⟨hbc, h2⟩
          · exact Or.inl (hab ▸ h2)
          · exact Or.inr ⟨hab.trans hbc, ih h1 h2⟩

theorem pyStrLeB_antisymm {as bs : List Char}
    (h1 : pyStrLeB as bs = true) (h2 : pyStrLeB bs as = true) : as = bs := by
  induction as generalizing bs with
  | nil =>
    cases bs with
    | nil => rfl
    | cons b bs => simp [pyStrLeB] at h2
  | cons a as ih =>
    cases bs with
    | nil => simp [pyStrLeB] at h1
    | cons b bs =>
      simp only [pyStrLeB, Bool.or_eq_true, Bool.and_eq_true,
        decide_eq_true_eq] at h1 h2
      rcases h1 with h1 | ⟨hab, h1⟩
      · rcases h2 with h2 | ⟨hba, _⟩
        · omega
        · omega
      · rcases h2 with h2 | ⟨_, h2⟩
        · omega
        · have hc : a = b := Char.ext (UInt32.ext hab)
          rw [hc, ih h1 h2]

instance : IsTotal String PyStrLe := ⟨fun a b => pyStrLeB_total a.data b.data⟩

instance : IsTrans String PyStrLe := ⟨fun _ _ _ => pyStrLeB_trans⟩

instance : IsAntisymm String PyStrLe :=
  ⟨fun _ _ h1 h2 => String.ext (pyStrLeB_antisymm h1 h2)⟩

instance : IsRefl String PyStrLe := ⟨fun a => pyStrLeB_refl a.data⟩

theorem find_files_sorted (files : List String) (pattern : String) :
    List.Sorted PyStrLe (find_files_with_same_pattern files pattern) :=
  List.sorted_insertionSort PyStrLe _

theorem find_files_perm_filter (files : List String) (pattern : String) :
    (find_files_with_same_pattern files pattern).Perm
      (files.filter fun f => globMatch pattern.data f.data) :=
  List.perm_insertionSort PyStrLe _

/-- Directory listings that are permutations of each other (files created in
any order) produce the same discovery result. -/
theorem find_files_perm_invariant {files₁ files₂ : List String}
    (h : files₁.Perm files₂) (pattern : String) :
    find_files_with_same_pattern files₁ pattern =
      find_files_with_same_pattern files₂ pattern := by
  apply List.eq_of_perm_of_sorted _ (find_files_sorted files₁ pattern)
      (find_files_sorted files₂ pattern)
  exact ((find_files_perm_filter files₁ pattern).trans
      (h.filter _)).trans (find_files_perm_filter files₂ pattern).symm

theorem find_files_empty_of_no_match {files : List String} {pattern : String}
    (h : ∀ f ∈ files, globMatch pattern.data f.data = false) :
    find_files_with_same_pattern files pattern = [] := by
  have hf : (files.filter fun f => globMatch pattern.data f.data) = [] := by
    apply List.filter_eq_nil_iff.mpr
    intro a ha
    simp [h a ha]
  unfold find_files_with_same_pattern
  rw [hf]
  rfl

theorem optionMapM_some_forall₂ {α β : Type} {f : α → Option β} :
    ∀ {l : List α} {l' : List β}, l.mapM f = some l' →
      List.Forall₂ (fun a b => f a = some b) l l' := by
  intro l
  induction l with
  | nil =>
    intro l' h
    rw [List.mapM_nil] at h
    cases h
    exact List.Forall₂.nil
  | cons a l ih =>
    intro l' h
    rw [List.mapM_cons] at h
    cases hfa : f a with
    | none => rw [hfa] at h; simp [Option.bind] at h
    | some b =>
      rw [hfa] at h
      cases hml : l.mapM f with
      | none => rw [hml] at h; simp [Option.bind] at h
      | some bs =>
        rw [hml] at h
        simp only [Option.bind_eq_bind, Option.some_bind, Option.pure_def,
          Option.some.injEq] at h
        cases h
        exact List.Forall₂.cons hfa (ih hml)

theorem optionMapM_none_of_mem {α β : Type} {f : α → Option β} {l : List α}
    {a : α} (ha : a ∈ l) (hfa : f a = none) : l.mapM f = none := by
  induction l with
  | nil => cases ha
  | cons x l ih =>
    rw [List.mapM_cons]
    rcases List.mem_cons.mp ha with rfl | ha'
    · rw [hfa]; rfl
    · cases hfx : f x with
      | none => rfl
      | some b =>
        rw [ih ha']
        rfl

theorem npArrayOfRows_ok {rows out : List (List PyFloat)}
    (h : npArrayOfRows rows = Except.ok out) : out = rows := by
  cases rows with
  | nil => cases h; rfl
  | cons r rs =>
    simp only [npArrayOfRows] at h
    split at h
    · cases h; rfl
    · cases h

theorem except_bind_ok {ε α β : Type} {m : Except ε α} {f : α → Except ε β}
    {b : β} (h : (m >>= f) = Except.ok b) :
    ∃ a, m = Except.ok a ∧ f a = Except.ok b := by
  cases m with
  | ok a => exact ⟨a, rfl, h⟩
  | error e => cases h

/-- The last element of a `PyStrLe`-sorted list is a `PyStrLe`-upper bound
of its elements. -/
theorem pyStrLe_getLast {l : List String} (hs : List.Sorted PyStrLe l)
    (h : l ≠ []) : ∀ a ∈ l, PyStrLe a (l.getLast h) := by
  induction l with
  | nil => cases h rfl
  | cons x xs ih =>
    intro a ha
    cases xs with
    | nil =>
      rcases List.mem_singleton.mp ha with rfl
      exact pyStrLeB_refl a.data
    | cons y ys =>
      rw [List.getLast_cons (List.cons_ne_nil y ys)]
      rcases List.mem_cons.mp ha with rfl | ha'
      · exact (List.sorted_cons.mp hs).1 _
          (List.getLast_mem (List.cons_ne_nil y ys))
      · exact ih (List.sorted_cons.mp hs).2 (List.cons_ne_nil y ys) a ha'

/-- On a non-empty `x`, a length-matched `y` and at least three titles,
`plot_data` reaches the end of its body and returns the fully configured
figure. -/
theorem plot_data_success {x y : List PyFloat} {titles : List String}
    (hx : x ≠ []) (hlen : x.length = y.length) (ht : 3 ≤ titles.length) :
    ∃ t0 t1 t2 x0 xn, titles.get? 0 = some t0 ∧ titles.get? 1 = some t1 ∧
      titles.get? 2 = some t2 ∧ x.get? 0 = some x0 ∧ x.getLast? = some xn ∧
      plot_data x y titles = Except.ok
        { lineColor := "black"
          lineWidth := PyFloat.finite 7 1
          xlabel := t0
          ylabel := t1
          title := t2
          legend := if titles.length = 4 then titles.getLast? else none
          xlim := (x0, xn)
          minorTicks := true
          tickDirection := "in"
          tickRight := true
          tickTop := true } := by
  have h0 : (0 : ℕ) < titles.length := by omega
  have h1 : (1 : ℕ) < titles.length := by omega
  have h2 : (2 : ℕ) < titles.length := by omega
  have hx0 : (0 : ℕ) < x.length := List.length_pos.mpr hx
  refine ⟨titles.get ⟨0, h0⟩, titles.get ⟨1, h1⟩, titles.get ⟨2, h2⟩,
    x.get ⟨0, hx0⟩, x.getLast hx,
    List.get?_eq_get h0, List.get?_eq_get h1, List.get?_eq_get h2,
    List.get?_eq_get hx0, List.getLast?_eq_getLast x hx, ?_⟩
  unfold plot_data
  rw [if_neg (fun hc => hc hlen)]
  simp only [pyIndex, pyLast, List.get?_eq_get h0, List.get?_eq_get h1,
    List.get?_eq_get h2, List.get?_eq_get hx0, List.getLast?_eq_getLast x hx,
    Bind.bind, Except.bind]

/-! ### The claims -/

/-- C2: per run, the orchestrator performs minimization, NVT, NPT, then —
only when `run_gromacs` is true — trajectory concatenation and periodicity
fix, then the initial- and latest-configuration extractions regardless of
the flag, and the four chart-rendering calls come only after all
simulation steps. -/
theorem run_steps_fixed_order :
    Run_steps true =
      [PipelineStep.genMinimization, PipelineStep.genNvt,
       PipelineStep.genNpt, PipelineStep.genFinalXtc,
       PipelineStep.fixPeriodicity, PipelineStep.getInitialConfiguration,
       PipelineStep.getLatestConfiguration,
       PipelineStep.plotEnergyMinimization, PipelineStep.plotTemperature,
       PipelineStep.plotPressure, PipelineStep.plotDensity] ∧
    Run_steps false =
      [PipelineStep.genMinimization, PipelineStep.genNvt,
       PipelineStep.genNpt, PipelineStep.getInitialConfiguration,
       PipelineStep.getLatestConfiguration,
       PipelineStep.plotEnergyMinimization, PipelineStep.plotTemperature,
       PipelineStep.plotPressure, PipelineStep.plotDensity] :=
  ⟨rfl, rfl⟩

/-- C7: the four energy-report operations build exactly the fixed
selector/filename shell commands: `10 0` over `em.edr` into
`potential.xvg`, `16 0` over `nvt.edr` into `temperature.xvg`, `18 0` over
`npt.edr` into `pressure.xvg`, and `24 0` over `npt.edr` into
`density.xvg`. -/
theorem energy_report_commands (g : GromacsData) :
    g.generate_minimization_data.map Invocation.command =
      [["sh", "-c", "echo 10 0 | gmx energy -f em.edr -o potential.xvg"]] ∧
    g.generate_nvt_data.map Invocation.command =
      [["sh", "-c", "echo 16 0 | gmx energy -f nvt.edr -o temperature.xvg"]] ∧
    g.generate_npt_data.map Invocation.command =
      [["sh", "-c", "echo 18 0 | gmx energy -f npt.edr -o pressure.xvg"],
       ["sh", "-c", "echo 24 0 | gmx energy -f npt.edr -o density.xvg"]] :=
  ⟨rfl, rfl, rfl⟩

/-- C1 (the code contradicts it): on a diagnostic report with no
`Last frame` marker, `get_latest_configuration` does not fail — the Python
`None` is interpolated into the f-string and the dump command is invoked
with the literal text `None` as the `-dump` timestamp. -/
theorem get_latest_configuration_no_marker_still_dumps :
    findLastFrame ["Checking file fixed.xtc",
        "Reading frame       0 time    0.000"] = none ∧
    GromacsData.get_latest_configuration ⟨"/data"⟩ ["md_0_1.tpr"]
        ["Checking file fixed.xtc", "Reading frame       0 time    0.000"] =
      Except.ok
        [{ image := "jpmontoya19/gromacs:latest"
           command := ["sh", "-c",
             "gmx check -f fixed.xtc > trajectory_info.txt 2>&1"]
           workingDir := "/container/data"
           volumes := [{ host := "/data", bind := "/container/data",
                         mode := "rw" }]
           remove := false },
         { image := "jpmontoya19/gromacs:latest"
           command := ["sh", "-c",
             trjconvDumpCommand "md_0_1.tpr" "last_configuration.pdb" "None"]
           workingDir := "/container/data"
           volumes := [{ host := "/data", bind := "/container/data",
                         mode := "rw" }]
           remove := false }] ∧
    List.isSuffixOf ("-dump None\n".data ++ List.replicate 12 ' ')
      (trjconvDumpCommand "md_0_1.tpr" "last_configuration.pdb" "None").data
      = true :=
  ⟨rfl, rfl, rfl⟩

/-- C3 (counterexample): an input whose two data lines parse to rows of
two and one tokens does not return successfully — the
`np.array(data, dtype=float)` conversion raises `ValueError` on the ragged
rows. -/
theorem read_xvg_ragged_counterexample :
    (["1.0 2.0", "3.0"].mapM parseXvgLine) =
      some [[PyFloat.finite 10 1, PyFloat.finite 20 1],
            [PyFloat.finite 30 1]] ∧
    read_xvg_files ["1.0 2.0", "3.0"] =
      Except.error "ValueError: setting an array element with a sequence" :=
  ⟨rfl, rfl⟩

/-- C3 (amended): the line-reading loop itself performs no column-count
validation — every line still parses — but the final array conversion
fails on the ragged rows, so the reader raises rather than returning an
irregular structure. -/
theorem read_xvg_ragged_errors (lines : List String)
    (rows : List (List PyFloat))
    (hrows : (lines.filter fun l => !isCommentLine l).mapM parseXvgLine =
      some rows)
    (r₁ r₂ : List PyFloat) (h₁ : r₁ ∈ rows) (h₂ : r₂ ∈ rows)
    (hne : r₁.length ≠ r₂.length) :
    read_xvg_files lines =
      Except.error "ValueError: setting an array element with a sequence" := by
  have hstep : read_xvg_files lines = npArrayOfRows rows := by
    unfold read_xvg_files
    rw [hrows]
  rw [hstep]
  cases rows with
  | nil => cases h₁
  | cons r rs =>
    simp only [npArrayOfRows]
    rw [if_neg]
    intro hall
    have hlen : ∀ row ∈ r :: rs, row.length = r.length := by
      intro row hrow
      rcases List.mem_cons.mp hrow with rfl | hrow'
      · rfl
      · exact beq_iff_eq.mp (List.all_eq_true.mp hall row hrow')
    exact hne ((hlen r₁ h₁).trans (hlen r₂ h₂).symm)

/-- C3 (amended, witness). -/
theorem read_xvg_ragged_errors_witness :
    read_xvg_files ["1.0 2.0", "3.0"] =
      Except.error "ValueError: setting an array element with a sequence" :=
  read_xvg_ragged_errors ["1.0 2.0", "3.0"]
    [[PyFloat.finite 10 1, PyFloat.finite 20 1], [PyFloat.finite 30 1]]
    rfl _ _ (List.mem_cons_self _ _)
    (List.mem_cons_of_mem _ (List.mem_cons_self _ _)) (by decide)

/-- C4: when at least one file matches `md_0_*.tpr`, the
lexicographically-last sorted match is returned (as both components of the
`(name, path)` pair); when none matches, the `[-1]` index raises
`IndexError` instead of returning a value. -/
theorem find_last_tpr_file_spec (g : GromacsData) (dirListing : List String) :
    (find_files_with_same_pattern dirListing "md_0_*.tpr" = [] →
      g.find_last_tpr_file dirListing =
        Except.error "IndexError: list index out of range") ∧
    (find_files_with_same_pattern dirListing "md_0_*.tpr" ≠ [] →
      ∃ b, g.find_last_tpr_file dirListing = Except.ok (b, b) ∧
        b ∈ find_files_with_same_pattern dirListing "md_0_*.tpr" ∧
        ∀ q ∈ find_files_with_same_pattern dirListing "md_0_*.tpr",
          PyStrLe q b) := by
  constructor
  · intro h
    unfold GromacsData.find_last_tpr_file
    rw [h]
    rfl
  · intro h
    refine ⟨(find_files_with_same_pattern dirListing "md_0_*.tpr").getLast h,
      ?_, List.getLast_mem h,
      pyStrLe_getLast (find_files_sorted dirListing "md_0_*.tpr") h⟩
    unfold GromacsData.find_last_tpr_file
    rw [List.getLast?_eq_getLast _ h]

/-- C4 (witness): on a listing with two matches and one non-match, the
maximal match `md_0_2.tpr` is returned. -/
theorem find_last_tpr_file_spec_witness :
    ∃ b, GromacsData.find_last_tpr_file ⟨"/data"⟩
        ["md_0_2.tpr", "md_0_10.tpr", "em.edr"] = Except.ok (b, b) ∧
      b ∈ find_files_with_same_pattern ["md_0_2.tpr", "md_0_10.tpr", "em.edr"]
        "md_0_*.tpr" ∧
      ∀ q ∈ find_files_with_same_pattern ["md_0_2.tpr", "md_0_10.tpr", "em.edr"]
        "md_0_*.tpr", PyStrLe q b :=
  (find_last_tpr_file_spec ⟨"/data"⟩ ["md_0_2.tpr", "md_0_10.tpr", "em.edr"]).2
    (by decide)

/-- C5: file discovery returns a list sorted lexicographically on the path
string, unchanged under any permutation of the directory enumeration
(creation) order, and an empty list — not an error — when nothing
matches. -/
theorem find_files_discovery_spec (pattern : String) :
    (∀ files, List.Sorted PyStrLe (find_files_with_same_pattern files pattern)) ∧
    (∀ files₁ files₂, files₁.Perm files₂ →
      find_files_with_same_pattern files₁ pattern =
        find_files_with_same_pattern files₂ pattern) ∧
    (∀ files, (∀ f ∈ files, globMatch pattern.data f.data = false) →
      find_files_with_same_pattern files pattern = []) :=
  ⟨fun files => find_files_sorted files pattern,
   fun _ _ h => find_files_perm_invariant h pattern,
   fun _ h => find_files_empty_of_no_match h⟩

/-- C5 (witness): two creation orders of the same files give the same
sorted discovery result, and a directory with no match yields `[]`. -/
theorem find_files_discovery_spec_witness :
    find_files_with_same_pattern ["b.xvg", "a.xvg"] "*.xvg" =
      find_files_with_same_pattern ["a.xvg", "b.xvg"] "*.xvg" ∧
    find_files_with_same_pattern ["notes.txt"] "*.xvg" = [] :=
  ⟨(find_files_discovery_spec "*.xvg").2.1 _ _ (List.Perm.swap _ _ _),
   (find_files_discovery_spec "*.xvg").2.2 ["notes.txt"] (by decide)⟩

/-- C6: on success the reader returns exactly one row per non-comment
line; a line whose first character is `#` or `@` is skipped wherever it
occurs and whatever follows; each retained row is the whitespace-split of
its line with every token parsed by Python `float`; and a non-numeric
token on any non-comment line makes the reader fail. -/
theorem read_xvg_reader_spec :
    (∀ lines rows, read_xvg_files lines = Except.ok rows →
      rows.length = (lines.filter fun l => !isCommentLine l).length) ∧
    (∀ pre post (c : String), isCommentLine c = true →
      read_xvg_files (pre ++ c :: post) = read_xvg_files (pre ++ post)) ∧
    (∀ lines rows, read_xvg_files lines = Except.ok rows →
      List.Forall₂ (fun l row => (pySplit l).mapM pyFloat? = some row)
        (lines.filter fun l => !isCommentLine l) rows) ∧
    (∀ lines l, l ∈ lines → isCommentLine l = false →
      (∃ t ∈ pySplit l, pyFloat? t = none) →
      read_xvg_files lines =
        Except.error "ValueError: could not convert string to float") := by
  have hok : ∀ lines rows, read_xvg_files lines = Except.ok rows →
      (lines.filter fun l => !isCommentLine l).mapM parseXvgLine = some rows := by
    intro lines rows h
    unfold read_xvg_files at h
    cases hm : (lines.filter fun l => !isCommentLine l).mapM parseXvgLine with
    | none => rw [hm] at h; cases h
    | some rows' =>
      rw [hm] at h
      cases npArrayOfRows_ok h
      rfl
  refine ⟨?_, ?_, ?_, ?_⟩
  · intro lines rows h
    exact ((optionMapM_some_forall₂ (hok lines rows h)).length_eq).symm
  · intro pre post c hc
    have hfilter : (pre ++ c :: post).filter (fun l => !isCommentLine l) =
        (pre ++ post).filter (fun l => !isCommentLine l) := by
      simp [List.filter_append, List.filter_cons, hc]
    unfold read_xvg_files
    rw [hfilter]
  · intro lines rows h
    exact optionMapM_some_forall₂ (hok lines rows h)
  · intro lines l hl hcomment ⟨t, ht, hparse⟩
    unfold read_xvg_files
    rw [optionMapM_none_of_mem
      (List.mem_filter.mpr ⟨hl, by rw [hcomment]; rfl⟩)
      (optionMapM_none_of_mem ht hparse)]

/-- C6 (witness): on a file of two comment lines and two data lines the
reader succeeds with two rows, and a non-numeric token makes it fail. -/
theorem read_xvg_reader_spec_witness :
    (Except.ok [[PyFloat.finite 1 0, PyFloat.finite 2 0],
                [PyFloat.finite 3 0, PyFloat.finite 4 0]] :
        Except String (List (List PyFloat))).map List.length =
      Except.ok ((["# t", "1 2", "@legend", "3 4"].filter
        fun l => !isCommentLine l).length) ∧
    read_xvg_files ["1.0 x"] =
      Except.error "ValueError: could not convert string to float" := by
  constructor
  · have h := read_xvg_reader_spec.1 ["# t", "1 2", "@legend", "3 4"]
      [[PyFloat.finite 1 0, PyFloat.finite 2 0],
       [PyFloat.finite 3 0, PyFloat.finite 4 0]] rfl
    rw [Except.map, ← h]
  · exact read_xvg_reader_spec.2.2.2 ["1.0 x"] "1.0 x"
      (List.mem_singleton.mpr rfl) rfl
      ⟨"x", by decide, rfl⟩

/-- C8: on equal-length non-empty series and a label list, `plot_data`
returns one line plot, black, width 0.7, minor ticks on, ticks drawn
inward on all four sides (right and top included), x-limits pinned to the
first and last x values; and each of the four wrappers saves its figure at
300 dpi with a tight bounding box. -/
theorem plot_chart_style_spec :
    (∀ (x y : List PyFloat) (titles : List String),
      x ≠ [] → x.length = y.length → 3 ≤ titles.length →
      ∃ fig, plot_data x y titles = Except.ok fig ∧
        fig.lineColor = "black" ∧ fig.lineWidth = PyFloat.finite 7 1 ∧
        fig.minorTicks = true ∧ fig.tickDirection = "in" ∧
        fig.tickRight = true ∧ fig.tickTop = true ∧
        ∃ x0 xn, x.get? 0 = some x0 ∧ x.getLast? = some xn ∧
          fig.xlim = (x0, xn)) ∧
    (∀ p lines out, Plots.plot_energy_minimization p lines = Except.ok out →
      out.savefig.dpi = 300 ∧ out.savefig.bboxInches = "tight") ∧
    (∀ p lines out, Plots.plot_temperature p lines = Except.ok out →
      out.savefig.dpi = 300 ∧ out.savefig.bboxInches = "tight") ∧
    (∀ p lines out, Plots.plot_pressure p lines = Except.ok out →
      out.savefig.dpi = 300 ∧ out.savefig.bboxInches = "tight") ∧
    (∀ p lines out, Plots.plot_density p lines = Except.ok out →
      out.savefig.dpi = 300 ∧ out.savefig.bboxInches = "tight") := by
  refine ⟨?_, ?_, ?_, ?_, ?_⟩
  · intro x y titles hx hlen ht
    obtain ⟨t0, t1, t2, x0, xn, _, _, _, ex0, exn, hplot⟩ :=
      plot_data_success hx hlen ht
    exact ⟨_, hplot, rfl, rfl, rfl, rfl, rfl, rfl, x0, xn, ex0, exn, rfl⟩
  · intro p lines out h
    unfold Plots.plot_energy_minimization at h
    obtain ⟨arr, _, h⟩ := except_bind_ok h
    obtain ⟨c0, _, h⟩ := except_bind_ok h
    obtain ⟨c1, _, h⟩ := except_bind_ok h
    obtain ⟨fig, _, h⟩ := except_bind_ok h
    cases h
    exact ⟨rfl, rfl⟩
  · intro p lines out h
    unfold Plots.plot_temperature at h
    obtain ⟨arr, _, h⟩ := except_bind_ok h
    obtain ⟨c0, _, h⟩ := except_bind_ok h
    obtain ⟨c1, _, h⟩ := except_bind_ok h
    obtain ⟨fig, _, h⟩ := except_bind_ok h
    cases h
    exact ⟨rfl, rfl⟩
  · intro p lines out h
    unfold Plots.plot_pressure at h
    obtain ⟨arr, _, h⟩ := except_bind_ok h
    obtain ⟨c0, _, h⟩ := except_bind_ok h
    obtain ⟨c1, _, h⟩ := except_bind_ok h
    obtain ⟨fig, _, h⟩ := except_bind_ok h
    cases h
    exact ⟨rfl, rfl⟩
  · intro p lines out h
    unfold Plots.plot_density at h
    obtain ⟨arr, _, h⟩ := except_bind_ok h
    obtain ⟨c0, _, h⟩ := except_bind_ok h
    obtain ⟨c1, _, h⟩ := except_bind_ok h
    obtain ⟨fig, _, h⟩ := except_bind_ok h
    cases h
    exact ⟨rfl, rfl⟩

/-- C8 (witness): a two-point series gives the styled figure, and a
concrete `potential.xvg` content is rendered and saved at 300 dpi with a
tight bounding box. -/
theorem plot_chart_style_spec_witness :
    (∃ fig, plot_data [PyFloat.finite 0 0, PyFloat.finite 1 0]
        [PyFloat.finite 2 0, PyFloat.finite 3 0] ["a", "b", "c"] =
        Except.ok fig ∧ fig.lineColor = "black" ∧
        fig.lineWidth = PyFloat.finite 7 1) ∧
    (∃ out, Plots.plot_energy_minimization ⟨"/d", "prot"⟩ ["0 1", "1000 2"] =
        Except.ok out ∧ out.savefig.dpi = 300 ∧
        out.savefig.bboxInches = "tight") := by
  constructor
  · obtain ⟨fig, hfig, hcolor, hwidth, _⟩ :=
      plot_chart_style_spec.1 [PyFloat.finite 0 0, PyFloat.finite 1 0]
        [PyFloat.finite 2 0, PyFloat.finite 3 0] ["a", "b", "c"]
        (by decide) (by decide) (by decide)
    exact ⟨fig, hfig, hcolor, hwidth⟩
  · cases hres : Plots.plot_energy_minimization ⟨"/d", "prot"⟩
        ["0 1", "1000 2"] with
    | ok out => exact ⟨out, rfl, plot_chart_style_spec.2.1 _ _ out hres⟩
    | error e =>
      have hok : (Plots.plot_energy_minimization ⟨"/d", "prot"⟩
          ["0 1", "1000 2"]).isOk = true := rfl
      rw [hres] at hok
      cases hok

/-- C9: `plot_data` on an empty `x` fails before returning a figure (the
`plt.xlim(left=x[0], right=x[-1])` indexing is out of bounds once control
reaches it); on any non-empty `x` (with matching `y` and a label list) the
two index accesses are in bounds and the call returns a figure. -/
theorem plot_data_empty_x_spec :
    (∀ (y : List PyFloat) (titles : List String),
      ∃ e, plot_data [] y titles = Except.error e) ∧
    (∀ (x y : List PyFloat) (titles : List String),
      x ≠ [] → x.length = y.length → 3 ≤ titles.length →
      ∃ fig, plot_data x y titles = Except.ok fig) := by
  constructor
  · intro y titles
    cases hres : plot_data [] y titles with
    | error e => exact ⟨e, rfl⟩
    | ok fig =>
      exfalso
      unfold plot_data at hres
      rcases Decidable.em (([] : List PyFloat).length ≠ y.length) with hy | hy
      · rw [if_pos hy] at hres
        cases hres
      · rw [if_neg hy] at hres
        obtain ⟨xlab, _, hres⟩ := except_bind_ok hres
        obtain ⟨ylab, _, hres⟩ := except_bind_ok hres
        obtain ⟨ttl, _, hres⟩ := except_bind_ok hres
        obtain ⟨x0, hd, _⟩ := except_bind_ok hres
        cases hd
  · intro x y titles hx hlen ht
    obtain ⟨_, _, _, _, _, _, _, _, _, _, hplot⟩ :=
      plot_data_success hx hlen ht
    exact ⟨_, hplot⟩

/-- C9 (witness): empty `x` fails; a singleton `x` succeeds. -/
theorem plot_data_empty_x_spec_witness :
    (∃ e, plot_data [] [] ["a", "b", "c"] = Except.error e) ∧
    (∃ fig, plot_data [PyFloat.finite 1 0] [PyFloat.finite 2 0]
        ["a", "b", "c"] = Except.ok fig) :=
  ⟨plot_data_empty_x_spec.1 [] ["a", "b", "c"],
   plot_data_empty_x_spec.2 [PyFloat.finite 1 0] [PyFloat.finite 2 0]
     ["a", "b", "c"] (by decide) (by decide) (by decide)⟩

/-- C10: every container invocation of every `GromacsData` operation
carries the one volume mapping built at construction — the working
directory bound read-write at `/container/data` — uses `/container/data`
as the container working directory, and runs the fixed image. -/
theorem container_invocation_invariant (g : GromacsData)
    (xtc_files dirListing reportLines : List String) (inv : Invocation)
    (h : inv ∈ g.generate_minimization_data ∨
      inv ∈ g.generate_nvt_data ∨
      inv ∈ g.generate_npt_data ∨
      inv ∈ g.generate_final_xtc_file xtc_files ∨
      inv ∈ okInvocations (g.fix_periodicity dirListing) ∨
      inv ∈ okInvocations (g.get_initial_configuration dirListing) ∨
      inv ∈ okInvocations (g.get_latest_configuration dirListing reportLines)) :
    inv.volumes =
      [{ host := g.path, bind := "/container/data", mode := "rw" }] ∧
    inv.workingDir = "/container/data" ∧
    inv.image = "jpmontoya19/gromacs:latest" := by
  rcases h with h | h | h | h | h | h | h
  · rcases List.mem_singleton.mp h with rfl
    exact ⟨rfl, rfl, rfl⟩
  · rcases List.mem_singleton.mp h with rfl
    exact ⟨rfl, rfl, rfl⟩
  · rcases List.mem_cons.mp h with rfl | h'
    · exact ⟨rfl, rfl, rfl⟩
    · rcases List.mem_singleton.mp h' with rfl
      exact ⟨rfl, rfl, rfl⟩
  · rcases List.mem_singleton.mp h with rfl
    exact ⟨rfl, rfl, rfl⟩
  · cases htpr : g.find_last_tpr_file dirListing with
    | error e =>
      simp only [GromacsData.fix_periodicity, htpr, Bind.bind, Except.bind,
        okInvocations] at h
      cases h
    | ok tpr =>
      simp only [GromacsData.fix_periodicity, htpr, Bind.bind, Except.bind,
        okInvocations] at h
      rcases List.mem_singleton.mp h with rfl
      exact ⟨rfl, rfl, rfl⟩
  · cases htpr : g.find_last_tpr_file dirListing with
    | error e =>
      simp only [GromacsData.get_initial_configuration, htpr, Bind.bind,
        Except.bind, okInvocations] at h
      cases h
    | ok tpr =>
      simp only [GromacsData.get_initial_configuration, htpr, Bind.bind,
        Except.bind, okInvocations] at h
      rcases List.mem_singleton.mp h with rfl
      exact ⟨rfl, rfl, rfl⟩
  · cases htpr : g.find_last_tpr_file dirListing with
    | error e =>
      simp only [GromacsData.get_latest_configuration, htpr, Bind.bind,
        Except.bind, okInvocations] at h
      cases h
    | ok tpr =>
      simp only [GromacsData.get_latest_configuration, htpr, Bind.bind,
        Except.bind, okInvocations] at h
      rcases List.mem_cons.mp h with rfl | h'
      · exact ⟨rfl, rfl, rfl⟩
      · rcases List.mem_singleton.mp h' with rfl
        exact ⟨rfl, rfl, rfl⟩

/-- C10 (witness): the minimization invocation of a concrete
`GromacsData` carries the fixed mapping, working directory and image. -/
theorem container_invocation_invariant_witness :
    (GromacsData.run_gromacs_container ⟨"/d"⟩
        ["sh", "-c", "echo 10 0 | gmx energy -f em.edr -o potential.xvg"]
        true).volumes =
      [{ host := "/d", bind := "/container/data", mode := "rw" }] ∧
    (GromacsData.run_gromacs_container ⟨"/d"⟩
        ["sh", "-c", "echo 10 0 | gmx energy -f em.edr -o potential.xvg"]
        true).workingDir = "/container/data" ∧
    (GromacsData.run_gromacs_container ⟨"/d"⟩
        ["sh", "-c", "echo 10 0 | gmx energy -f em.edr -o potential.xvg"]
        true).image = "jpmontoya19/gromacs:latest" :=
  container_invocation_invariant ⟨"/d"⟩ [] [] []
    (GromacsData.run_gromacs_container ⟨"/d"⟩
      ["sh", "-c", "echo 10 0 | gmx energy -f em.edr -o potential.xvg"] true)
    (Or.inl (List.mem_singleton.mpr rfl))

end LigandPlots
